import Mathlib

/-!
# Verification of the PageIndex vectorless-RAG navigation engine

Shallow embedding of `src/pageindex.py` (class `PageIndexNavigator` and the
document tree model).  The external LLM oracle is modelled as scripted data:
a function `Nat → RawReply` giving the raw structured reply to the n-th
"navigate" chat call, and a plain string for the "synthesize" chat call.
The embedding instruments the run with an event log (how many navigate calls
were made and whether the synthesize oracle round-trip happened), and threads
the `DocumentIndex` through the call so that the frame property (the source
contains no statement mutating the index or its nodes) is a stated theorem.

Python `float` confidences are modelled as `Rat`: the values the code
manipulates (`0.0`, `0.5`, parsed JSON numbers) are exact in the claims.
-/

namespace PageIndex

/-- `class NavigationAction(str, Enum)` — the four navigation actions
(`descend`, `extract`, `backtrack`, `complete`). -/
inductive NavigationAction where
  | descend
  | extract
  | backtrack
  | complete
deriving DecidableEq, Repr

/-- The `.value` of the enum member, i.e. the underlying string. -/
def NavigationAction.value : NavigationAction → String
  | .descend => "descend"
  | .extract => "extract"
  | .backtrack => "backtrack"
  | .complete => "complete"

/-- `NavigationAction(s)` — the enum constructor on a raw string.  It raises
`ValueError` (here `none`) on anything but the four member values. -/
def NavigationAction.ofValue (s : String) : Option NavigationAction :=
  if s = "descend" then some .descend
  else if s = "extract" then some .extract
  else if s = "backtrack" then some .backtrack
  else if s = "complete" then some .complete
  else none

/-- `class NavigationDecision(BaseModel)` — the oracle's decision for one step. -/
structure NavigationDecision where
  action : NavigationAction
  target_section : Option String := none
  reasoning : String
  extracted_info : Option String := none
  confidence : Rat := 0
deriving DecidableEq, Repr

/-- `class QueryResult(BaseModel)` — final result of a document query. -/
structure QueryResult where
  answer : String
  sources : List String
  confidence : Rat
  navigation_path : List String
  reasoning_trace : List String
deriving DecidableEq, Repr

/-- `@dataclass class DocumentNode` — a node of the document tree.
`children` is the id-keyed, insertion-ordered dict of owned children
(association list here).  The Python `parent` back-reference is not a field
of this inductive value (that would make the object graph cyclic): because
the tree is never mutated during navigation, the engine's cursor below
carries the ancestor chain, and `current_node.parent` is its head. -/
inductive DocumentNode where
  | node (id : String) (title : String) (content : String) (level : Nat)
      (children : List (String × DocumentNode))

def DocumentNode.id : DocumentNode → String
  | .node i _ _ _ _ => i

def DocumentNode.title : DocumentNode → String
  | .node _ t _ _ _ => t

def DocumentNode.content : DocumentNode → String
  | .node _ _ c _ _ => c

def DocumentNode.level : DocumentNode → Nat
  | .node _ _ _ l _ => l

def DocumentNode.children : DocumentNode → List (String × DocumentNode)
  | .node _ _ _ _ cs => cs

/-- `@dataclass class DocumentIndex` — the main PageIndex structure.
`metadata` is the open string-keyed mapping (the engine only reads string
values from it) and `nodes_by_id` the flat id → node lookup. -/
structure DocumentIndex where
  document_id : String
  metadata : List (String × String)
  root : DocumentNode
  nodes_by_id : List (String × DocumentNode) := []

/-- `index.metadata.get('document_type', 'Document')` as used by `query`. -/
def DocumentIndex.docType (idx : DocumentIndex) : String :=
  match idx.metadata.lookup "document_type" with
  | some t => t
  | none => "Document"

/-- A raw structured reply from the navigate oracle, as seen by
`_get_navigation_decision` after the chat call (`src/pageindex.py:358-368`).
`invalidJson` models a reply on which `json.loads` (or the subsequent
dict access) raises; `json` models a successfully decoded JSON object,
with `none` for each absent key (`result.get(...)` returning its default). -/
inductive RawReply where
  | invalidJson
  | json (action : Option String) (target_section : Option String)
      (reasoning : Option String) (extracted_info : Option String)
      (confidence : Option Rat)
deriving DecidableEq, Repr

/-- The exceptions that escape `_get_navigation_decision`'s parsing code:
`json.loads` failure, or `ValueError` from `NavigationAction(tok)` on an
action token that is not one of the four enum values. -/
inductive ParseError where
  | invalidJson
  | unknownAction (tok : String)
deriving DecidableEq, Repr

/-- The parsing tail of `_get_navigation_decision` (`src/pageindex.py:368-375`):

    result = json.loads(response.choices[0].message.content)
    return NavigationDecision(
        action=NavigationAction(result.get('action', 'complete')),
        target_section=result.get('target_section'),
        reasoning=result.get('reasoning', ''),
        extracted_info=result.get('extracted_info'),
        confidence=float(result.get('confidence', 0.5)))

There is no `try`/`except` around this code, so both failure modes raise out
of the caller (`query`); only a *missing* `action` key is defaulted (to
`'complete'`), and a missing `confidence` is defaulted to `0.5`. -/
def parseNavigationDecision : RawReply → Except ParseError NavigationDecision
  | .invalidJson => .error .invalidJson
  | .json action target reasoning extracted conf =>
    let tok := match action with
      | some s => s
      | none => "complete"
    match NavigationAction.ofValue tok with
    | none => .error (.unknownAction tok)
    | some act =>
      .ok { action := act
            target_section := target
            reasoning := match reasoning with
              | some r => r
              | none => ""
            extracted_info := extracted
            confidence := match conf with
              | some c => c
              | none => 1/2 }

/-- The mutable local state of one `query` invocation
(`src/pageindex.py:269-273`): the cursor `current_node` plus the four
accumulator lists.  `ancestors` is the chain of parent back-references of
the cursor, nearest parent first: `current_node.parent` is `ancestors.head?`
(the tree is never mutated, so the parent object saved when descending is
still the parent when backtracking). -/
structure NavState where
  current : DocumentNode
  ancestors : List DocumentNode
  navigation_path : List String
  reasoning_trace : List String
  extracted_pieces : List String
  sources : List String

/-- Initial engine state (`src/pageindex.py:269-273`): cursor at `index.root`,
`navigation_path = ["root"]` (the literal string), empty accumulators. -/
def initState (idx : DocumentIndex) : NavState :=
  { current := idx.root
    ancestors := []
    navigation_path := ["root"]
    reasoning_trace := []
    extracted_pieces := []
    sources := [] }

/-- Python `str(x)` on an `Optional[str]` as interpolated into an f-string:
`None` prints as `"None"`. -/
def pyOptStr : Option String → String
  | some s => s
  | none => "None"

/-- The per-step trace line
`f"Step {step + 1}: {decision.action.value} - {decision.reasoning}"`. -/
def stepTraceLine (step : Nat) (d : NavigationDecision) : String :=
  "Step " ++ toString (step + 1) ++ ": " ++ d.action.value ++ " - " ++ d.reasoning

/-- The invalid-descend trace line
`f"  -> Invalid section '{decision.target_section}', staying at current location"`. -/
def invalidSectionLine (target : Option String) : String :=
  "  -> Invalid section '" ++ pyOptStr target ++ "', staying at current location"

/-- The DESCEND branch (`src/pageindex.py:291-296`).  Python truthiness:
`if decision.target_section and decision.target_section in current_node.children`
moves the cursor only when `target_section` is neither `None` nor the empty
string and is a key of the children dict; otherwise the cursor does not move
and a trace line records the invalid target. -/
def applyDescend (st : NavState) (d : NavigationDecision) : NavState :=
  match d.target_section with
  | some t =>
    if t = "" then
      { st with reasoning_trace := st.reasoning_trace ++ [invalidSectionLine d.target_section] }
    else
      match st.current.children.lookup t with
      | some child =>
        { st with current := child
                  ancestors := st.current :: st.ancestors
                  navigation_path := st.navigation_path ++ [t] }
      | none =>
        { st with reasoning_trace := st.reasoning_trace ++ [invalidSectionLine d.target_section] }
  | none =>
    { st with reasoning_trace := st.reasoning_trace ++ [invalidSectionLine d.target_section] }

/-- The EXTRACT branch (`src/pageindex.py:298-301`): `if decision.extracted_info:`
(truthy = present and non-empty) appends the text to `extracted_pieces` and
`f"{current_node.id}: {current_node.title}"` to `sources`; otherwise no-op. -/
def applyExtract (st : NavState) (d : NavigationDecision) : NavState :=
  match d.extracted_info with
  | some info =>
    if info = "" then st
    else
      { st with extracted_pieces := st.extracted_pieces ++ [info]
                sources := st.sources ++ [st.current.id ++ ": " ++ st.current.title] }
  | none => st

/-- The BACKTRACK branch (`src/pageindex.py:303-306`): `if current_node.parent:`
moves the cursor to the parent and appends `f"[up]{current_node.id}"` (the id
of the node *after* moving, i.e. the parent's id) to `navigation_path`; at the
root (`parent is None`) the whole branch is a no-op. -/
def applyBacktrack (st : NavState) : NavState :=
  match st.ancestors with
  | p :: rest =>
    { st with current := p
              ancestors := rest
              navigation_path := st.navigation_path ++ ["[up]" ++ p.id] }
  | [] => st

/-- The `for step in range(max_steps)` loop of `query`
(`src/pageindex.py:275-309`), with `fuel` the number of remaining iterations
and `step` the current 0-based step index.  `oracle n` is the raw reply to the
(n+1)-th navigate chat call.  Returns either the parse error that escaped
`_get_navigation_decision` (the source has no handler for it) or the final
state together with the last bound `decision` (none iff the body never ran);
the second component counts the navigate oracle calls actually made (the chat
call happens before parsing, so a parse failure still counts). -/
def navLoop (oracle : Nat → RawReply) (fuel : Nat) (step : Nat) (st : NavState) :
    Except ParseError (NavState × Option NavigationDecision) × Nat :=
  match fuel with
  | 0 => (.ok (st, none), 0)
  | fuel' + 1 =>
    match parseNavigationDecision (oracle step) with
    | .error e => (.error e, 1)
    | .ok d =>
      let st1 := { st with reasoning_trace := st.reasoning_trace ++ [stepTraceLine step d] }
      match d.action with
      | .complete => (.ok (st1, some d), 1)
      | .descend =>
        let (r, n) := navLoop oracle fuel' (step + 1) (applyDescend st1 d)
        (continueResult d r, n + 1)
      | .extract =>
        let (r, n) := navLoop oracle fuel' (step + 1) (applyExtract st1 d)
        (continueResult d r, n + 1)
      | .backtrack =>
        let (r, n) := navLoop oracle fuel' (step + 1) (applyBacktrack st1)
        (continueResult d r, n + 1)
where
  /-- Merge the current decision into the tail of the loop: the last bound
  `decision` is the tail's, unless the tail ran no iteration. -/
  continueResult (d : NavigationDecision) :
      Except ParseError (NavState × Option NavigationDecision) →
      Except ParseError (NavState × Option NavigationDecision)
  | .error e => .error e
  | .ok (st', last) =>
    .ok (st', some (match last with
      | some d' => d'
      | none => d))

/-- The fixed empty-evidence answer of `_synthesize_answer`
(`src/pageindex.py:380-381`). -/
def sentinelAnswer : String :=
  "Unable to find relevant information in the document."

/-- `_synthesize_answer` (`src/pageindex.py:377-412`): with no extracted
pieces it returns the fixed sentinel without any chat call; otherwise it
makes the synthesize chat call and returns the oracle's reply verbatim
(`synthReply`; the prompt text it sends is not observable in the result).
The boolean records whether the oracle round-trip happened. -/
def synthesizeAnswer (extracted_pieces : List String) (synthReply : String) :
    String × Bool :=
  if extracted_pieces.isEmpty then (sentinelAnswer, false)
  else (synthReply, true)

/-- The observable outcome of one `query` call: the returned `QueryResult`
(or the parse error that escaped), the event log of oracle calls, and the
state of the by-reference `DocumentIndex` after the call. -/
structure QueryRun where
  result : Except ParseError QueryResult
  navCalls : Nat
  synthCalled : Bool
  indexAfter : DocumentIndex

/-- `PageIndexNavigator.query` (`src/pageindex.py:258-325`).  `max_steps` is
the Python `int` argument (default 15; `range` of a non-positive value is
empty).  After the loop, the answer is synthesized and the result's
`confidence` is `decision.confidence if extracted_pieces else 0.0` — the
conditional expression evaluates its condition first, so the never-bound
`decision` of a zero-iteration loop is not read (the `none` branch below is
unreachable when `extracted_pieces` is non-empty, since pieces only grow
inside the loop body).  The source contains no assignment to `index` or to
any node attribute, so the index is returned unchanged in `indexAfter`. -/
def query (idx : DocumentIndex) (q : String) (oracle : Nat → RawReply)
    (synthReply : String) (max_steps : Int := 15) : QueryRun :=
  match navLoop oracle max_steps.toNat 0 (initState idx) with
  | (.error e, n) =>
    { result := .error e, navCalls := n, synthCalled := false, indexAfter := idx }
  | (.ok (st, lastDecision), n) =>
    let synth := synthesizeAnswer st.extracted_pieces synthReply
    { result := .ok
        { answer := synth.1
          sources := st.sources
          confidence :=
            if st.extracted_pieces.isEmpty then 0
            else match lastDecision with
              | some d => d.confidence
              | none => 0
          navigation_path := st.navigation_path
          reasoning_trace := st.reasoning_trace }
      navCalls := n
      synthCalled := synth.2
      indexAfter := idx }

/-! ## Concrete sample data

A small three-level document (the scenario tree of the spec) and scripted
oracles, used to instantiate the hypotheses of the claim theorems. -/

/-- Leaf section of the sample tree. -/
def markdownRulesNode : DocumentNode :=
  .node "Markdown Rules" "Markdown Rules"
    "Dairy markdown: 20% after 3 days, 50% after 7 days" 2 []

/-- Middle section of the sample tree. -/
def policyNode : DocumentNode :=
  .node "Policy" "Policy" "" 1 [("Markdown Rules", markdownRulesNode)]

/-- Root of the sample tree. -/
def sampleRootNode : DocumentNode :=
  .node "root" "Sample Doc" "" 0 [("Policy", policyNode)]

/-- A sample document index over the three-level tree. -/
def sampleIdx : DocumentIndex :=
  { document_id := "d1"
    metadata := [("document_type", "Document")]
    root := sampleRootNode }

/-- A well-formed oracle reply carrying a COMPLETE action. -/
def completeReply : RawReply :=
  .json (some "complete") none (some "done") none (some (9/10))

/-- The decision `completeReply` parses to. -/
def completeDecision : NavigationDecision :=
  { action := .complete
    target_section := none
    reasoning := "done"
    extracted_info := none
    confidence := 9/10 }

/-- An oracle that answers COMPLETE to every navigate call. -/
def completeOracle : Nat → RawReply := fun _ => completeReply

/-- An oracle whose every reply fails `json.loads`. -/
def badJsonOracle : Nat → RawReply := fun _ => .invalidJson

/-! ## Helper lemmas about the navigation loop -/

/-- With zero remaining iterations the loop returns its state unchanged, binds
no decision and makes no oracle call. -/
theorem navLoop_zero (oracle : Nat → RawReply) (step : Nat) (st : NavState) :
    navLoop oracle 0 step st = (.ok (st, none), 0) := rfl

/-- The loop makes at most `fuel` navigate oracle calls. -/
theorem navLoop_calls_le (oracle : Nat → RawReply) (fuel : Nat) :
    ∀ (step : Nat) (st : NavState), (navLoop oracle fuel step st).2 ≤ fuel := by
  induction fuel with
  | zero => intro step st; simp [navLoop]
  | succ f ih =>
    intro step st
    rw [navLoop]
    cases hp : parseNavigationDecision (oracle step) with
    | error e => exact Nat.succ_le_succ (Nat.zero_le f)
    | ok d =>
      cases ha : d.action with
      | complete => simp only [ha]; exact Nat.succ_le_succ (Nat.zero_le f)
      | descend => simp only [ha]; exact Nat.succ_le_succ (ih _ _)
      | extract => simp only [ha]; exact Nat.succ_le_succ (ih _ _)
      | backtrack => simp only [ha]; exact Nat.succ_le_succ (ih _ _)

/-- Continuing the loop after a non-COMPLETE step always reports a bound last
decision (or an error): it never yields `ok` with `none`. -/
theorem continueResult_ne_ok_none (d : NavigationDecision)
    (r : Except ParseError (NavState × Option NavigationDecision)) (st' : NavState) :
    navLoop.continueResult d r ≠ .ok (st', none) := by
  cases r with
  | error e => simp [navLoop.continueResult]
  | ok p =>
    rcases p with ⟨st2, last⟩
    simp [navLoop.continueResult]

/-- An `ok` loop outcome that binds no decision can only come from the
zero-iteration loop: the state is returned untouched and no call was made
(in the source, `decision` stays unbound exactly when the body never ran). -/
theorem navLoop_ok_none (oracle : Nat → RawReply) (fuel step : Nat)
    (st st' : NavState) (n : Nat)
    (h : navLoop oracle fuel step st = (.ok (st', none), n)) :
    st' = st ∧ n = 0 := by
  cases fuel with
  | zero =>
    rw [navLoop] at h
    simp only [Prod.mk.injEq, Except.ok.injEq] at h
    exact ⟨h.1.1.symm, h.2.symm⟩
  | succ f =>
    rw [navLoop] at h
    split at h
    · simp at h
    · dsimp only at h
      split at h
      · simp at h
      all_goals
        exact absurd (congrArg Prod.fst h) (continueResult_ne_ok_none _ _ _)

/-- A DESCEND step (valid or not) touches neither accumulator list. -/
theorem applyDescend_accumulators (st : NavState) (d : NavigationDecision) :
    (applyDescend st d).sources = st.sources ∧
    (applyDescend st d).extracted_pieces = st.extracted_pieces := by
  unfold applyDescend
  split
  · split
    · exact ⟨rfl, rfl⟩
    · split <;> exact ⟨rfl, rfl⟩
  · exact ⟨rfl, rfl⟩

/-- A BACKTRACK step touches neither accumulator list. -/
theorem applyBacktrack_accumulators (st : NavState) :
    (applyBacktrack st).sources = st.sources ∧
    (applyBacktrack st).extracted_pieces = st.extracted_pieces := by
  unfold applyBacktrack
  split <;> exact ⟨rfl, rfl⟩

/-- An EXTRACT step preserves `len(sources) == len(extracted_pieces)`: it
appends to both lists or to neither. -/
theorem applyExtract_len (st : NavState) (d : NavigationDecision)
    (h : st.sources.length = st.extracted_pieces.length) :
    (applyExtract st d).sources.length = (applyExtract st d).extracted_pieces.length := by
  unfold applyExtract
  split
  · split
    · exact h
    · simp [h]
  · exact h

/-- The loop preserves `len(sources) == len(extracted_pieces)`. -/
theorem navLoop_len (oracle : Nat → RawReply) (fuel : Nat) :
    ∀ (step : Nat) (st st' : NavState) (ld : Option NavigationDecision) (n : Nat),
      navLoop oracle fuel step st = (.ok (st', ld), n) →
      st.sources.length = st.extracted_pieces.length →
      st'.sources.length = st'.extracted_pieces.length := by
  induction fuel with
  | zero =>
    intro step st st' ld n h hlen
    rw [navLoop] at h
    simp only [Prod.mk.injEq, Except.ok.injEq] at h
    rw [← h.1.1]
    exact hlen
  | succ f ih =>
    intro step st st' ld n h hlen
    rw [navLoop] at h
    split at h
    · simp at h
    · dsimp only at h
      rename_i d hp
      split at h
      · simp only [Prod.mk.injEq, Except.ok.injEq] at h
        rw [← h.1.1]
        exact hlen
      · rename_i ha
        have h1 := congrArg Prod.fst h
        dsimp only at h1
        cases hr : (navLoop oracle f (step + 1)
            (applyDescend { st with reasoning_trace :=
              st.reasoning_trace ++ [stepTraceLine step d] } d)).1 with
        | error e => rw [hr] at h1; simp [navLoop.continueResult] at h1
        | ok p =>
          rcases p with ⟨st2, last⟩
          rw [hr] at h1
          simp only [navLoop.continueResult, Except.ok.injEq, Prod.mk.injEq] at h1
          have hl2 : (applyDescend { st with reasoning_trace :=
              st.reasoning_trace ++ [stepTraceLine step d] } d).sources.length =
              (applyDescend { st with reasoning_trace :=
                st.reasoning_trace ++ [stepTraceLine step d] } d).extracted_pieces.length := by
            rw [(applyDescend_accumulators _ _).1, (applyDescend_accumulators _ _).2]
            exact hlen
          have := ih (step + 1) _ st2 last _ (by rw [← hr]) hl2
          rw [← h1.1]
          exact this
      · rename_i ha
        have h1 := congrArg Prod.fst h
        dsimp only at h1
        cases hr : (navLoop oracle f (step + 1)
            (applyExtract { st with reasoning_trace :=
              st.reasoning_trace ++ [stepTraceLine step d] } d)).1 with
        | error e => rw [hr] at h1; simp [navLoop.continueResult] at h1
        | ok p =>
          rcases p with ⟨st2, last⟩
          rw [hr] at h1
          simp only [navLoop.continueResult, Except.ok.injEq, Prod.mk.injEq] at h1
          have hl2 := applyExtract_len { st with reasoning_trace :=
            st.reasoning_trace ++ [stepTraceLine step d] } d hlen
          have := ih (step + 1) _ st2 last _ (by rw [← hr]) hl2
          rw [← h1.1]
          exact this
      · rename_i ha
        have h1 := congrArg Prod.fst h
        dsimp only at h1
        cases hr : (navLoop oracle f (step + 1)
            (applyBacktrack { st with reasoning_trace :=
              st.reasoning_trace ++ [stepTraceLine step d] })).1 with
        | error e => rw [hr] at h1; simp [navLoop.continueResult] at h1
        | ok p =>
          rcases p with ⟨st2, last⟩
          rw [hr] at h1
          simp only [navLoop.continueResult, Except.ok.injEq, Prod.mk.injEq] at h1
          have hl2 : (applyBacktrack { st with reasoning_trace :=
              st.reasoning_trace ++ [stepTraceLine step d] }).sources.length =
              (applyBacktrack { st with reasoning_trace :=
                st.reasoning_trace ++ [stepTraceLine step d] }).extracted_pieces.length := by
            rw [(applyBacktrack_accumulators _).1, (applyBacktrack_accumulators _).2]
            exact hlen
          have := ih (step + 1) _ st2 last _ (by rw [← hr]) hl2
          rw [← h1.1]
          exact this

/-! ## Claims -/

/-- **C1 (counterexample).** The claim says an unparseable oracle reply must
not crash the query: the engine should substitute a COMPLETE-equivalent
decision and return a valid `QueryResult`.  On the code, a reply on which
`json.loads` fails raises out of `_get_navigation_decision` and past the
`query` boundary (there is no handler): at this concrete input the run ends
in the propagated parse error, not in a `QueryResult`. -/
theorem claim_C1_counterexample :
    (query sampleIdx "q" badJsonOracle "SYNTH" 15).result =
      .error ParseError.invalidJson := rfl

/-- **C1 (amended).** Only a reply whose parsed JSON *omits* the action field
is defaulted to a COMPLETE decision at the boundary-parsing layer
(`result.get('action', 'complete')`); a reply with bad JSON, or with an
action token that is not one of the four enum values, raises a parse error
that propagates out of `query` unchanged — the engine returns no
`QueryResult` for such a run. -/
theorem claim_C1 :
    (∀ (t r ex : Option String) (c : Option Rat),
        parseNavigationDecision (RawReply.json none t r ex c) =
          .ok { action := .complete
                target_section := t
                reasoning := match r with
                  | some s => s
                  | none => ""
                extracted_info := ex
                confidence := match c with
                  | some v => v
                  | none => 1/2 })
    ∧ (∀ (tok : String) (t r ex : Option String) (c : Option Rat),
        NavigationAction.ofValue tok = none →
        parseNavigationDecision (RawReply.json (some tok) t r ex c) =
          .error (.unknownAction tok))
    ∧ (∀ (idx : DocumentIndex) (q : String) (oracle : Nat → RawReply)
          (s : String) (ms : Int) (e : ParseError), 0 < ms →
        parseNavigationDecision (oracle 0) = .error e →
        (query idx q oracle s ms).result = .error e) := by
  refine ⟨fun t r ex c => rfl, fun tok t r ex c h => ?_, ?_⟩
  · unfold parseNavigationDecision
    dsimp only
    rw [h]
  · intro idx q oracle s ms e hms hp
    have h1 : ms.toNat ≠ 0 := by omega
    obtain ⟨f, hf⟩ := Nat.exists_eq_succ_of_ne_zero h1
    unfold query
    rw [hf, navLoop, hp]

/-- **C1 (witness).** The amended claim at concrete inputs: a bad-JSON first
reply makes `query` return the propagated error, and an unknown action token
makes the parser fail with that token. -/
theorem claim_C1_witness :
    ((0 : Int) < 3 ∧ parseNavigationDecision (badJsonOracle 0) = .error .invalidJson)
    ∧ (query sampleIdx "q" badJsonOracle "SYNTH" 3).result = .error .invalidJson
    ∧ NavigationAction.ofValue "wat" = none
    ∧ parseNavigationDecision (RawReply.json (some "wat") none none none none) =
        .error (.unknownAction "wat") :=
  ⟨⟨by decide, rfl⟩,
   claim_C1.2.2 sampleIdx "q" badJsonOracle "SYNTH" 3 .invalidJson (by decide) rfl,
   rfl,
   claim_C1.2.1 "wat" none none none none rfl⟩

/-- **C2 (counterexample).** The claim says a parsed reply that omits
`confidence` yields a decision with confidence `0.0`.  The parsing layer
passes `float(result.get('confidence', 0.5))`, so at this concrete reply the
constructed decision carries confidence `0.5 ≠ 0.0`. -/
theorem claim_C2_counterexample :
    (parseNavigationDecision (RawReply.json (some "complete") none (some "ok") none none)).map
        NavigationDecision.confidence = Except.ok (1/2 : Rat)
    ∧ (1/2 : Rat) ≠ 0 :=
  ⟨rfl, by norm_num⟩

/-- **C2 (amended).** For every oracle reply whose parsed JSON object omits
the confidence field, the `NavigationDecision` constructed at the
boundary-parsing layer has confidence `0.5` (the `NavigationDecision`
pydantic class declares a field default of `0.0`, but the parsing layer
always passes an explicit value, defaulting the missing key to `0.5`). -/
theorem claim_C2 (act t r ex : Option String) (d : NavigationDecision)
    (h : parseNavigationDecision (RawReply.json act t r ex none) = .ok d) :
    d.confidence = 1/2 := by
  unfold parseNavigationDecision at h
  dsimp only at h
  split at h
  · simp at h
  · simp only [Except.ok.injEq] at h
    rw [← h]

/-- **C2 (witness).** The amended claim at a concrete reply omitting
confidence. -/
theorem claim_C2_witness :
    parseNavigationDecision (RawReply.json (some "descend") (some "Policy") (some "r") none none)
      = .ok { action := .descend, target_section := some "Policy", reasoning := "r",
              extracted_info := none, confidence := 1/2 }
    ∧ ({ action := .descend, target_section := some "Policy", reasoning := "r",
         extracted_info := none, confidence := 1/2 } : NavigationDecision).confidence = 1/2 :=
  ⟨rfl, claim_C2 (some "descend") (some "Policy") (some "r") none _ rfl⟩

/-- **C3 (counterexample).** The claim fixes the empty-evidence sentinel as
the string "no relevant information found".  On a concrete zero-extraction
run the returned answer is the code's actual sentinel, "Unable to find
relevant information in the document.", which differs from the claimed
string. -/
theorem claim_C3_counterexample :
    (query sampleIdx "q" completeOracle "SYNTH" 15).result.map QueryResult.answer
        = Except.ok sentinelAnswer
    ∧ sentinelAnswer ≠ "no relevant information found" :=
  ⟨rfl, by decide⟩

/-- **C3 (amended).** For every query run in which zero extractions occurred,
the returned answer equals the fixed sentinel string "Unable to find relevant
information in the document.", the returned confidence equals `0.0`, and the
synthesizer's oracle call is never invoked. -/
theorem claim_C3 (idx : DocumentIndex) (q s : String) (oracle : Nat → RawReply)
    (ms : Int) (st : NavState) (ld : Option NavigationDecision) (n : Nat)
    (hrun : navLoop oracle ms.toNat 0 (initState idx) = (.ok (st, ld), n))
    (hempty : st.extracted_pieces = []) :
    (query idx q oracle s ms).result =
      .ok { answer := sentinelAnswer
            sources := st.sources
            confidence := 0
            navigation_path := st.navigation_path
            reasoning_trace := st.reasoning_trace }
    ∧ (query idx q oracle s ms).synthCalled = false := by
  unfold query
  rw [hrun]
  dsimp only
  rw [hempty]
  constructor <;> simp [synthesizeAnswer]

/-- The loop state after a run whose very first decision is COMPLETE. -/
def completeFirstState : NavState :=
  { current := sampleRootNode
    ancestors := []
    navigation_path := ["root"]
    reasoning_trace := ["Step 1: complete - done"]
    extracted_pieces := []
    sources := [] }

/-- **C3 (witness).** The amended claim at a concrete run: the oracle answers
COMPLETE on step 1, so nothing is extracted; the answer is the sentinel,
confidence is 0 and the synthesize oracle call never happens. -/
theorem claim_C3_witness :
    navLoop completeOracle (15 : Int).toNat 0 (initState sampleIdx)
        = (.ok (completeFirstState, some completeDecision), 1)
    ∧ completeFirstState.extracted_pieces = []
    ∧ (query sampleIdx "q" completeOracle "SYNTH" 15).result =
        .ok { answer := sentinelAnswer
              sources := []
              confidence := 0
              navigation_path := ["root"]
              reasoning_trace := ["Step 1: complete - done"] }
    ∧ (query sampleIdx "q" completeOracle "SYNTH" 15).synthCalled = false :=
  ⟨rfl, rfl,
   (claim_C3 sampleIdx "q" "SYNTH" completeOracle 15 completeFirstState
      (some completeDecision) 1 rfl rfl).1,
   (claim_C3 sampleIdx "q" "SYNTH" completeOracle 15 completeFirstState
      (some completeDecision) 1 rfl rfl).2⟩

/-- **C4.** A DESCEND decision whose `target_section` is absent (or empty, by
Python truthiness) or not among the current node's direct children leaves the
whole cursor (node and parent chain) and `navigation_path` unchanged and only
appends the invalid-target trace line; it is not fatal: the loop body with
such a first step continues into the remaining iterations from that
unmoved-cursor state (one more oracle call consumed). -/
theorem claim_C4 (st : NavState) (d : NavigationDecision)
    (hd : d.action = .descend)
    (h : ∀ t, d.target_section = some t → st.current.children.lookup t = none) :
    applyDescend st d =
      { st with reasoning_trace := st.reasoning_trace ++ [invalidSectionLine d.target_section] }
    ∧ (applyDescend st d).current = st.current
    ∧ (applyDescend st d).navigation_path = st.navigation_path
    ∧ ∀ (oracle : Nat → RawReply) (f step : Nat),
        parseNavigationDecision (oracle step) = .ok d →
        navLoop oracle (f + 1) step st =
          (navLoop.continueResult d
             (navLoop oracle f (step + 1)
                { st with reasoning_trace := st.reasoning_trace ++
                    [stepTraceLine step d, invalidSectionLine d.target_section] }).1,
           (navLoop oracle f (step + 1)
                { st with reasoning_trace := st.reasoning_trace ++
                    [stepTraceLine step d, invalidSectionLine d.target_section] }).2 + 1) := by
  have happly : ∀ st0 : NavState, st0.current = st.current →
      applyDescend st0 d =
        { st0 with reasoning_trace := st0.reasoning_trace ++ [invalidSectionLine d.target_section] } := by
    intro st0 hcur
    unfold applyDescend
    cases ht : d.target_section with
    | none => rfl
    | some t =>
      dsimp only
      split
      · rfl
      · rw [hcur, h t ht]
  refine ⟨happly st rfl, by rw [happly st rfl], by rw [happly st rfl], ?_⟩
  intro oracle f step hp
  rw [navLoop, hp]
  dsimp only
  rw [hd]
  dsimp only
  rw [happly { st with reasoning_trace := st.reasoning_trace ++ [stepTraceLine step d] } rfl]
  have hS : ({ st with reasoning_trace :=
        (st.reasoning_trace ++ [stepTraceLine step d]) ++ [invalidSectionLine d.target_section] } : NavState) =
      { st with reasoning_trace := st.reasoning_trace ++
        [stepTraceLine step d, invalidSectionLine d.target_section] } := by
    simp
  rw [hS]

/-- A decision descending to a section id that exists nowhere in the sample
tree. -/
def badDescendDecision : NavigationDecision :=
  { action := .descend
    target_section := some "Nope"
    reasoning := "bad"
    extracted_info := none
    confidence := 1/10 }

/-- **C4 (witness).** The invalid-descend no-op at a concrete state and
decision. -/
theorem claim_C4_witness :
    badDescendDecision.action = .descend
    ∧ (∀ t, badDescendDecision.target_section = some t →
        (initState sampleIdx).current.children.lookup t = none)
    ∧ applyDescend (initState sampleIdx) badDescendDecision =
        { initState sampleIdx with reasoning_trace :=
            ["  -> Invalid section 'Nope', staying at current location"] } :=
  ⟨rfl, fun t ht => by cases ht; rfl,
   (claim_C4 (initState sampleIdx) badDescendDecision rfl
      (fun t ht => by cases ht; rfl)).1⟩

/-- **C5.** BACKTRACK with a parent present moves the cursor to that parent
and appends the up-marker `"[up]" + parent.id` to `navigation_path`;
BACKTRACK at the root (no parent) is a no-op on the whole engine state, with
no error. -/
theorem claim_C5 (st : NavState) :
    (∀ (p : DocumentNode) (rest : List DocumentNode), st.ancestors = p :: rest →
        applyBacktrack st =
          { st with current := p
                    ancestors := rest
                    navigation_path := st.navigation_path ++ ["[up]" ++ p.id] })
    ∧ (st.ancestors = [] → applyBacktrack st = st) := by
  constructor
  · intro p rest hp
    unfold applyBacktrack
    rw [hp]
  · intro hp
    unfold applyBacktrack
    rw [hp]

/-- A concrete mid-navigation state: cursor at the Policy node, root above. -/
def backtrackDemoState : NavState :=
  { current := policyNode
    ancestors := [sampleRootNode]
    navigation_path := ["root", "Policy"]
    reasoning_trace := []
    extracted_pieces := []
    sources := [] }

/-- **C5 (witness).** Backtracking from the Policy node moves to the root and
records the up-marker; backtracking at the root is the identity. -/
theorem claim_C5_witness :
    backtrackDemoState.ancestors = [sampleRootNode]
    ∧ applyBacktrack backtrackDemoState =
        { backtrackDemoState with
            current := sampleRootNode
            ancestors := []
            navigation_path := ["root", "Policy", "[up]root"] }
    ∧ (initState sampleIdx).ancestors = []
    ∧ applyBacktrack (initState sampleIdx) = initState sampleIdx :=
  ⟨rfl,
   (claim_C5 backtrackDemoState).1 sampleRootNode [] rfl,
   rfl,
   (claim_C5 (initState sampleIdx)).2 rfl⟩

/-- **C6.** `len(sources) == len(extractedPieces)` is preserved by the loop
(hence holds after every step and after the whole loop, from the empty
initial accumulators); they are index-aligned because the only step touching
either list is an EXTRACT with non-empty `extracted_info`, which appends the
extracted text and the label `"{node.id}: {node.title}"` of the current node
pairwise, while an EXTRACT with absent or empty `extracted_info` changes
neither list. -/
theorem claim_C6 :
    (∀ (oracle : Nat → RawReply) (fuel step : Nat) (st st' : NavState)
        (ld : Option NavigationDecision) (n : Nat),
        navLoop oracle fuel step st = (.ok (st', ld), n) →
        st.sources.length = st.extracted_pieces.length →
        st'.sources.length = st'.extracted_pieces.length)
    ∧ (∀ (st : NavState) (d : NavigationDecision) (info : String),
        d.extracted_info = some info → info ≠ "" →
        applyExtract st d =
          { st with extracted_pieces := st.extracted_pieces ++ [info]
                    sources := st.sources ++ [st.current.id ++ ": " ++ st.current.title] })
    ∧ (∀ (st : NavState) (d : NavigationDecision),
        (∀ info, d.extracted_info = some info → info = "") →
        applyExtract st d = st) := by
  refine ⟨fun oracle fuel step st st' ld n h hlen =>
    navLoop_len oracle fuel step st st' ld n h hlen, ?_, ?_⟩
  · intro st d info hi hne
    unfold applyExtract
    rw [hi]
    dsimp only
    rw [if_neg hne]
  · intro st d hi
    unfold applyExtract
    cases hcase : d.extracted_info with
    | none => rfl
    | some info =>
      dsimp only
      rw [if_pos (hi info hcase)]

/-- A decision extracting a non-empty piece of evidence. -/
def extractDecision : NavigationDecision :=
  { action := .extract
    target_section := none
    reasoning := "found"
    extracted_info := some "Dairy fact"
    confidence := 3/4 }

/-- **C6 (witness).** The alignment invariant at a concrete run and the
extract append at a concrete state. -/
theorem claim_C6_witness :
    navLoop completeOracle (15 : Int).toNat 0 (initState sampleIdx)
        = (.ok (completeFirstState, some completeDecision), 1)
    ∧ (initState sampleIdx).sources.length = (initState sampleIdx).extracted_pieces.length
    ∧ completeFirstState.sources.length = completeFirstState.extracted_pieces.length
    ∧ applyExtract (initState sampleIdx) extractDecision =
        { initState sampleIdx with
            extracted_pieces := ["Dairy fact"]
            sources := ["root: Sample Doc"] } :=
  ⟨rfl, rfl,
   claim_C6.1 completeOracle (15 : Int).toNat 0 (initState sampleIdx)
     completeFirstState (some completeDecision) 1 rfl rfl,
   claim_C6.2.1 (initState sampleIdx) extractDecision "Dairy fact" rfl (by decide)⟩

/-- **C7.** `query` makes at most `maxSteps` navigate oracle calls for every
index, query text, oracle and `maxSteps` value (a non-positive `maxSteps`
clamps to zero); a COMPLETE decision terminates the loop immediately — with
remaining budget `f` it still returns after that single call — and exhausted
fuel is a normal termination returning the state unchanged with no call. -/
theorem claim_C7 :
    (∀ (idx : DocumentIndex) (q : String) (oracle : Nat → RawReply)
        (s : String) (ms : Int),
        (query idx q oracle s ms).navCalls ≤ ms.toNat)
    ∧ (∀ (oracle : Nat → RawReply) (f step : Nat) (st : NavState)
        (d : NavigationDecision),
        parseNavigationDecision (oracle step) = .ok d → d.action = .complete →
        navLoop oracle (f + 1) step st =
          (.ok ({ st with reasoning_trace := st.reasoning_trace ++ [stepTraceLine step d] },
            some d), 1))
    ∧ (∀ (oracle : Nat → RawReply) (step : Nat) (st : NavState),
        navLoop oracle 0 step st = (.ok (st, none), 0)) := by
  refine ⟨?_, ?_, fun oracle step st => navLoop_zero oracle step st⟩
  · intro idx q oracle s ms
    have hb := navLoop_calls_le oracle ms.toNat 0 (initState idx)
    unfold query
    rcases hnl : navLoop oracle ms.toNat 0 (initState idx) with ⟨r, n⟩
    rw [hnl] at hb
    cases r with
    | error e => exact hb
    | ok p =>
      rcases p with ⟨st, ld⟩
      exact hb
  · intro oracle f step st d hp ha
    rw [navLoop, hp]
    dsimp only
    rw [ha]

/-- **C7 (witness).** The call bound and the immediate COMPLETE termination at
concrete inputs. -/
theorem claim_C7_witness :
    (query sampleIdx "q" completeOracle "SYNTH" 15).navCalls ≤ (15 : Int).toNat
    ∧ parseNavigationDecision (completeOracle 0) = .ok completeDecision
    ∧ completeDecision.action = .complete
    ∧ navLoop completeOracle (4 + 1) 0 (initState sampleIdx)
        = (.ok (completeFirstState, some completeDecision), 1)
    ∧ navLoop completeOracle 0 7 completeFirstState = (.ok (completeFirstState, none), 0) :=
  ⟨claim_C7.1 sampleIdx "q" completeOracle "SYNTH" 15,
   rfl, rfl,
   claim_C7.2.1 completeOracle 4 0 (initState sampleIdx) completeDecision rfl rfl,
   claim_C7.2.2 completeOracle 7 completeFirstState⟩

/-- **C8.** The returned confidence is the confidence carried on the most
recent decision when at least one extraction occurred (whatever that last
decision's action was), and `0.0` when no extraction occurred, regardless of
any decision's reported confidence; a run with extractions always has a last
decision. -/
theorem claim_C8 (idx : DocumentIndex) (q s : String) (oracle : Nat → RawReply)
    (ms : Int) (st : NavState) (ld : Option NavigationDecision) (n : Nat)
    (r : QueryResult)
    (hrun : navLoop oracle ms.toNat 0 (initState idx) = (.ok (st, ld), n))
    (hres : (query idx q oracle s ms).result = .ok r) :
    (st.extracted_pieces = [] → r.confidence = 0)
    ∧ (∀ d, ld = some d → st.extracted_pieces ≠ [] → r.confidence = d.confidence)
    ∧ (st.extracted_pieces ≠ [] → ld ≠ none) := by
  unfold query at hres
  rw [hrun] at hres
  dsimp only at hres
  simp only [Except.ok.injEq] at hres
  refine ⟨?_, ?_, ?_⟩
  · intro he
    rw [← hres]
    dsimp only
    rw [he]
    simp
  · intro d hld hne
    rw [← hres]
    dsimp only
    rw [hld]
    cases hl : st.extracted_pieces with
    | nil => exact absurd hl hne
    | cons a l => rfl
  · intro hne hnone
    obtain ⟨hst, -⟩ :=
      navLoop_ok_none oracle ms.toNat 0 (initState idx) st n (hnone ▸ hrun)
    exact hne (by rw [hst]; rfl)

/-- The oracle that extracts on its first call and completes on its second. -/
def extractThenCompleteOracle : Nat → RawReply := fun n =>
  if n = 0 then .json (some "extract") none (some "found") (some "Dairy fact") (some (3/4))
  else completeReply

/-- The loop state after the extract-then-complete run on the sample index. -/
def extractDemoState : NavState :=
  { current := sampleRootNode
    ancestors := []
    navigation_path := ["root"]
    reasoning_trace := ["Step 1: extract - found", "Step 2: complete - done"]
    extracted_pieces := ["Dairy fact"]
    sources := ["root: Sample Doc"] }

/-- The result returned by the extract-then-complete run. -/
def extractDemoResult : QueryResult :=
  { answer := "SYNTH"
    sources := ["root: Sample Doc"]
    confidence := 9/10
    navigation_path := ["root"]
    reasoning_trace := ["Step 1: extract - found", "Step 2: complete - done"] }

/-- **C8 (witness).** A run with one extraction whose last decision is a
COMPLETE carrying confidence 9/10: the result's confidence is that value. -/
theorem claim_C8_witness :
    navLoop extractThenCompleteOracle (15 : Int).toNat 0 (initState sampleIdx)
        = (.ok (extractDemoState, some completeDecision), 2)
    ∧ (query sampleIdx "q" extractThenCompleteOracle "SYNTH" 15).result =
        .ok extractDemoResult
    ∧ extractDemoState.extracted_pieces ≠ []
    ∧ extractDemoResult.confidence = completeDecision.confidence :=
  ⟨rfl, rfl, by decide,
   (claim_C8 sampleIdx "q" "SYNTH" extractThenCompleteOracle 15 extractDemoState
      (some completeDecision) 2 extractDemoResult rfl rfl).2.1
     completeDecision rfl (by decide)⟩

/-- **C9.** `query` never mutates the index or any node of its tree: the
source contains no assignment to `index`, to `metadata`, to `nodes_by_id` or
to any node attribute, so the by-reference index threaded through the
embedded call comes back unchanged — as a value, which makes every node
reachable from `root` (its id, title, content, level, children and the
parent relation they induce) and the index's `document_id`, `metadata`,
`root` and `nodes_by_id` equal to their values before the call, for every
oracle behavior including parse-error runs. -/
theorem claim_C9 (idx : DocumentIndex) (q s : String) (oracle : Nat → RawReply)
    (ms : Int) :
    (query idx q oracle s ms).indexAfter = idx
    ∧ (query idx q oracle s ms).indexAfter.document_id = idx.document_id
    ∧ (query idx q oracle s ms).indexAfter.metadata = idx.metadata
    ∧ (query idx q oracle s ms).indexAfter.root = idx.root
    ∧ (query idx q oracle s ms).indexAfter.nodes_by_id = idx.nodes_by_id := by
  have h : (query idx q oracle s ms).indexAfter = idx := by
    unfold query
    rcases hnl : navLoop oracle ms.toNat 0 (initState idx) with ⟨r, n⟩
    cases r with
    | error e => rfl
    | ok p =>
      rcases p with ⟨st, ld⟩
      rfl
  exact ⟨h, by rw [h], by rw [h], by rw [h], by rw [h]⟩

/-- **C10.** With `maxSteps <= 0` the loop body never runs (`range` of a
non-positive bound is empty): no navigate call is made, the synthesizer
short-circuits on the empty evidence without its oracle call, and the result
is the sentinel answer with confidence `0.0`, empty `sources` and
`reasoning_trace`, and `navigation_path == ["root"]`.  In particular the run
returns normally: the conditional `decision.confidence if extracted_pieces
else 0.0` evaluates its (false) condition first and never reads the
never-bound `decision` (no `NameError`) — in the embedding, the `none`
last-decision branch is never consulted because the empty-pieces branch is
taken. -/
theorem claim_C10 (idx : DocumentIndex) (q : String) (oracle : Nat → RawReply)
    (s : String) (ms : Int) (hms : ms ≤ 0) :
    query idx q oracle s ms =
      { result := .ok { answer := sentinelAnswer
                        sources := []
                        confidence := 0
                        navigation_path := ["root"]
                        reasoning_trace := [] }
        navCalls := 0
        synthCalled := false
        indexAfter := idx } := by
  have h0 : ms.toNat = 0 := Int.toNat_of_nonpos hms
  unfold query
  rw [h0, navLoop]
  rfl

/-- **C10 (witness).** The degenerate run at a concrete negative budget. -/
theorem claim_C10_witness :
    (-2 : Int) ≤ 0
    ∧ query sampleIdx "q" badJsonOracle "SYNTH" (-2) =
        { result := .ok { answer := sentinelAnswer
                          sources := []
                          confidence := 0
                          navigation_path := ["root"]
                          reasoning_trace := [] }
          navCalls := 0
          synthCalled := false
          indexAfter := sampleIdx } :=
  ⟨by decide, claim_C10 sampleIdx "q" badJsonOracle "SYNTH" (-2) (by decide)⟩

end PageIndex
